import Mathlib

/-!
Verification of the risk-profile and escalation engine of the
Nidhi-Rakshak fraud-detection service (src/app.py) against its
natural-language specification.

The Python source is shallowly embedded below: module-level threshold
constants, the pure risk-score and risk-level functions, the profile
update performed by `update_user_fraud_profile` (modelling the SQLite
row as a `Profile` structure and the read-modify-write as a function on
`Option Profile`), the manual blacklist action, the read-only lookup and
transaction validation, and the legacy in-memory counter store touched
by `reset_fraud_counter`.  Python floats are modelled as rationals,
timestamps as natural numbers counting hours.
-/

namespace NidhiRakshak

/-- Threshold constants, app.py lines 97-100. -/
def FRAUD_WARNING_THRESHOLD : Nat := 10

/-- Threshold constant, app.py line 98. -/
def HIGH_RISK_THRESHOLD : Nat := 20

/-- Threshold constant, app.py line 99. -/
def CRITICAL_RISK_THRESHOLD : Nat := 50

/-- Threshold constant, app.py line 100. -/
def BLACKLIST_THRESHOLD : Nat := 100

/-- Embedding of `calculate_risk_score` (app.py lines 211-230).
The count penalties use the literal values 50/20/10 exactly as the
source does. -/
def calculate_risk_score (fraud_count total_transactions recent_frauds : Nat) : ℚ :=
  if total_transactions = 0 then 0
  else
    let fraud_rate : ℚ := (fraud_count : ℚ) / (total_transactions : ℚ)
    let base_score : ℚ := fraud_rate * 100
    let base_score : ℚ :=
      if fraud_count > 50 then base_score + 30
      else if fraud_count > 20 then base_score + 15
      else if fraud_count > 10 then base_score + 5
      else base_score
    let base_score : ℚ := base_score + (recent_frauds : ℚ) * 2
    min base_score 100

/-- Embedding of `get_risk_level_from_score` (app.py lines 232-243). -/
def get_risk_level_from_score (risk_score : ℚ) (fraud_count : Nat) : String :=
  if fraud_count ≥ BLACKLIST_THRESHOLD ∨ risk_score ≥ 90 then "BLACKLISTED"
  else if fraud_count ≥ CRITICAL_RISK_THRESHOLD ∨ risk_score ≥ 75 then "CRITICAL"
  else if fraud_count ≥ HIGH_RISK_THRESHOLD ∨ risk_score ≥ 50 then "HIGH"
  else if fraud_count ≥ FRAUD_WARNING_THRESHOLD ∨ risk_score ≥ 25 then "MEDIUM"
  else "LOW"

/-- One row of the `fraud_profiles` table (app.py lines 119-134), keeping
the columns the risk engine reads or writes.  `created_at` and
`last_updated` are bookkeeping timestamps no claim mentions and are
omitted.  The `is_blacklisted` column has SQL default FALSE (line 130). -/
structure Profile where
  upi_id : String
  total_fraud_count : Nat
  total_transactions : Nat
  fraud_rate : ℚ
  current_risk_level : String
  risk_score : ℚ
  first_fraud_date : Option Nat
  last_fraud_date : Option Nat
  is_blacklisted : Bool
  warning_flags : List String
deriving DecidableEq

/-- One row of the `transaction_history` table as inserted by
`update_user_fraud_profile` (app.py lines 317-324). -/
structure HistoryRecord where
  upi_id : String
  transaction_amount : ℚ
  transaction_type : String
  is_fraud : Bool
  fraud_probability : ℚ
  risk_level : String
  partner_app_id : String
deriving DecidableEq

/-- Embedding of `update_user_fraud_profile` (app.py lines 245-343).
The argument `old` is the row the function reads for this identifier
(`None` when absent), `now` is `datetime.now()` in hours; the result is
the stored profile row together with the appended history record.  In
the creation branch the INSERT (lines 269-277) does not mention the
`is_blacklisted` column, so the row gets the SQL default FALSE. -/
def update_user_fraud_profile (old : Option Profile) (upi_id : String)
    (is_fraud : Bool) (transaction_amount : ℚ) (transaction_type : String)
    (partner_app_id : String) (now : Nat) : Profile × HistoryRecord :=
  match old with
  | none =>
    let fraud_count : Nat := if is_fraud then 1 else 0
    let total_transactions : Nat := 1
    let fraud_rate : ℚ := (fraud_count : ℚ) / (total_transactions : ℚ)
    let risk_score : ℚ := calculate_risk_score fraud_count total_transactions 0
    let risk_level : String := get_risk_level_from_score risk_score fraud_count
    let warning_flags : List String := if is_fraud then ["FIRST_FRAUD_DETECTED"] else []
    ({ upi_id := upi_id
       total_fraud_count := fraud_count
       total_transactions := total_transactions
       fraud_rate := fraud_rate
       current_risk_level := risk_level
       risk_score := risk_score
       first_fraud_date := if is_fraud then some now else none
       last_fraud_date := if is_fraud then some now else none
       is_blacklisted := false
       warning_flags := warning_flags },
     { upi_id := upi_id
       transaction_amount := transaction_amount
       transaction_type := transaction_type
       is_fraud := is_fraud
       fraud_probability := risk_score / 100
       risk_level := risk_level
       partner_app_id := partner_app_id })
  | some profile =>
    let fraud_count : Nat := profile.total_fraud_count + (if is_fraud then 1 else 0)
    let total_transactions : Nat := profile.total_transactions + 1
    let fraud_rate : ℚ :=
      if total_transactions > 0 then (fraud_count : ℚ) / (total_transactions : ℚ) else 0
    let risk_score : ℚ := calculate_risk_score fraud_count total_transactions 0
    let risk_level : String := get_risk_level_from_score risk_score fraud_count
    let warning_flags : List String := profile.warning_flags
    let warning_flags : List String :=
      if fraud_count = FRAUD_WARNING_THRESHOLD then
        warning_flags ++ ["MEDIUM_RISK_THRESHOLD_REACHED"]
      else if fraud_count = HIGH_RISK_THRESHOLD then
        warning_flags ++ ["HIGH_RISK_THRESHOLD_REACHED"]
      else if fraud_count = CRITICAL_RISK_THRESHOLD then
        warning_flags ++ ["CRITICAL_RISK_THRESHOLD_REACHED"]
      else if fraud_count ≥ BLACKLIST_THRESHOLD then
        warning_flags ++ ["BLACKLIST_THRESHOLD_REACHED"]
      else warning_flags
    let warning_flags : List String :=
      if is_fraud then
        match profile.last_fraud_date with
        | some last_fraud =>
          if now < last_fraud + 24 then warning_flags ++ ["RECENT_FRAUD_ACTIVITY"]
          else warning_flags
        | none => warning_flags
      else warning_flags
    let is_blacklisted : Bool :=
      decide (fraud_count ≥ BLACKLIST_THRESHOLD) || decide (risk_score ≥ 90)
    ({ upi_id := upi_id
       total_fraud_count := fraud_count
       total_transactions := total_transactions
       fraud_rate := fraud_rate
       current_risk_level := risk_level
       risk_score := risk_score
       first_fraud_date := profile.first_fraud_date
       last_fraud_date := if is_fraud then some now else profile.last_fraud_date
       is_blacklisted := is_blacklisted
       warning_flags := warning_flags },
     { upi_id := upi_id
       transaction_amount := transaction_amount
       transaction_type := transaction_type
       is_fraud := is_fraud
       fraud_probability := risk_score / 100
       risk_level := risk_level
       partner_app_id := partner_app_id })

/-- Embedding of `manually_blacklist_user` (app.py lines 802-846),
restricted to its effect on the `fraud_profiles` row. -/
def manually_blacklist_user (old : Option Profile) (upi_id reason : String) : Profile :=
  match old with
  | none =>
    { upi_id := upi_id
      total_fraud_count := 0
      total_transactions := 0
      fraud_rate := 0
      current_risk_level := "BLACKLISTED"
      risk_score := 100
      first_fraud_date := none
      last_fraud_date := none
      is_blacklisted := true
      warning_flags := ["MANUAL_BLACKLIST: " ++ reason] }
  | some profile =>
    { profile with
      is_blacklisted := true
      current_risk_level := "BLACKLISTED"
      risk_score := 100
      warning_flags := profile.warning_flags ++ ["MANUAL_BLACKLIST: " ++ reason] }

/-- Arguments of one `apply` call on a fixed identifier. -/
structure ApplyArgs where
  is_fraud : Bool
  transaction_amount : ℚ
  transaction_type : String
  partner_app_id : String
  now : Nat
deriving DecidableEq

/-- The stored profile after one `update_user_fraud_profile` call. -/
def applyStep (upi_id : String) (p : Option Profile) (a : ApplyArgs) : Profile :=
  (update_user_fraud_profile p upi_id a.is_fraud a.transaction_amount
    a.transaction_type a.partner_app_id a.now).1

/-- The stored profile after a sequence of `update_user_fraud_profile`
calls on one identifier, starting from the given row. -/
def applyAll (upi_id : String) (p : Option Profile) : List ApplyArgs → Option Profile
  | [] => p
  | a :: rest => applyAll upi_id (some (applyStep upi_id p a)) rest

/-- A fraudulent transaction outcome used in concrete scenarios. -/
def fraudArgs : ApplyArgs :=
  { is_fraud := true, transaction_amount := 100, transaction_type := "TRANSFER",
    partner_app_id := "", now := 0 }

/-- A non-fraudulent transaction outcome used in concrete scenarios. -/
def cleanArgs : ApplyArgs :=
  { is_fraud := false, transaction_amount := 100, transaction_type := "TRANSFER",
    partner_app_id := "", now := 0 }

/-- The fields of the dict returned by `get_user_fraud_profile`
(app.py lines 361-401) that `validate_transaction_realtime` reads. -/
structure LookupResult where
  upi_id : String
  status : String
  risk_level : String
  fraud_count : Nat
  risk_score : ℚ
  is_blacklisted : Bool
  recommendation : String
deriving DecidableEq

/-- The recommendation computed for a stored profile by
`get_user_fraud_profile` (app.py lines 377-386). -/
def lookup_recommendation (p : Profile) : String :=
  if p.is_blacklisted then "BLOCK_TRANSACTION"
  else if p.current_risk_level = "CRITICAL" then "MANUAL_REVIEW_REQUIRED"
  else if p.current_risk_level = "HIGH" then "ENHANCED_VERIFICATION"
  else if p.current_risk_level = "MEDIUM" then "PROCEED_WITH_CAUTION"
  else "PROCEED"

/-- Embedding of `get_user_fraud_profile` (app.py lines 345-401): the
profile store is an association list keyed by identifier; an absent
identifier yields the USER_NOT_FOUND view of lines 361-373.  The partner
access-log insert has no effect on the returned view and is modelled at
the system level. -/
def get_user_fraud_profile (profiles : List (String × Profile)) (upi_id : String) :
    LookupResult :=
  match List.lookup upi_id profiles with
  | none =>
    { upi_id := upi_id, status := "USER_NOT_FOUND", risk_level := "UNKNOWN",
      fraud_count := 0, risk_score := 0, is_blacklisted := false,
      recommendation := "NEW_USER_CAUTION" }
  | some p =>
    { upi_id := upi_id, status := "USER_FOUND", risk_level := p.current_risk_level,
      fraud_count := p.total_fraud_count, risk_score := p.risk_score,
      is_blacklisted := p.is_blacklisted,
      recommendation := lookup_recommendation p }

/-- Request body of `/validate-transaction` (app.py lines 74-79). -/
structure ValidationRequest where
  upi_id : String
  partner_app_id : String
  transaction_amount : ℚ
  transaction_type : String
  recipient_upi_id : Option String
deriving DecidableEq

/-- The `validation_result` object returned by
`validate_transaction_realtime` (app.py lines 1013-1020). -/
structure ValidationResult where
  should_proceed : Bool
  should_block : Bool
  transaction_risk : String
  risk_factors : List String
  recommendation : String
deriving DecidableEq

/-- Denylist of fraud-indicative substrings (app.py line 967). -/
def fraudulent_patterns : List String := ["fraud", "scammer", "fake", "cheat", "spam"]

/-- Python `any(pattern in s.lower() for pattern in fraudulent_patterns)`
(app.py lines 968-969): `.lower()` is modelled character-wise and `in`
as list-infix containment. -/
def containsFraudPattern (s : String) : Bool :=
  fraudulent_patterns.any
    (fun pattern => decide (pattern.data <:+: s.data.map Char.toLower))

/-- Embedding of the risk assessment of `validate_transaction_realtime`
(app.py lines 962-1020).  The partner-app authentication gate of lines
942-957 (HTTP 401 before any assessment) and the response envelope
around `validation_result` are outside the assessment logic and not
modelled; `profiles` is the profile store read through
`get_user_fraud_profile` (line 960). -/
def validate_transaction_realtime (profiles : List (String × Profile))
    (request : ValidationRequest) : ValidationResult :=
  let profile := get_user_fraud_profile profiles request.upi_id
  let transaction_risk : String := "LOW"
  let risk_factors : List String := []
  let hit := (containsFraudPattern request.upi_id ||
    (match request.recipient_upi_id with
     | some recipient => containsFraudPattern recipient
     | none => false))
  let (transaction_risk, risk_factors) :=
    if hit then ("CRITICAL", risk_factors ++ ["SUSPICIOUS_UPI_ID"])
    else (transaction_risk, risk_factors)
  let (transaction_risk, risk_factors) :=
    if request.transaction_amount > 100000 then
      ((if transaction_risk = "LOW" then "HIGH" else transaction_risk),
       risk_factors ++ ["HIGH_AMOUNT"])
    else if request.transaction_amount > 50000 then
      ((if transaction_risk = "LOW" then "MEDIUM" else transaction_risk),
       risk_factors ++ ["MEDIUM_AMOUNT"])
    else (transaction_risk, risk_factors)
  let (transaction_risk, risk_factors) :=
    if profile.is_blacklisted then ("CRITICAL", risk_factors ++ ["BLACKLISTED_USER"])
    else if profile.risk_level = "CRITICAL" then
      ("CRITICAL", risk_factors ++ ["CRITICAL_USER_RISK"])
    else if profile.risk_level = "HIGH" then
      ((if transaction_risk = "LOW" then "MEDIUM" else transaction_risk),
       risk_factors ++ ["HIGH_USER_RISK"])
    else (transaction_risk, risk_factors)
  let (transaction_risk, risk_factors) :=
    if request.transaction_type = "CASH_OUT" ∧ request.transaction_amount > 25000 then
      ((if transaction_risk = "LOW" ∨ transaction_risk = "MEDIUM" then "HIGH"
        else transaction_risk),
       risk_factors ++ ["SUSPICIOUS_CASH_OUT"])
    else (transaction_risk, risk_factors)
  let recommendation : String :=
    if transaction_risk = "CRITICAL" then "BLOCK_TRANSACTION"
    else if transaction_risk = "HIGH" then "MANUAL_REVIEW_REQUIRED"
    else if transaction_risk = "MEDIUM" then "PROCEED_WITH_CAUTION"
    else "PROCEED"
  let should_block : Bool := profile.is_blacklisted || (transaction_risk == "CRITICAL")
  { should_proceed := !should_block
    should_block := should_block
    transaction_risk := transaction_risk
    risk_factors := risk_factors
    recommendation := recommendation }

/-- One entry of the legacy module-level `fraud_counters` dict
(app.py line 93 and the zeroed entry written at lines 1117-1123). -/
structure CounterEntry where
  fraud_count : Nat
  total_transactions : Nat
  first_fraud : Option Nat
  last_fraud : Option Nat
  warning_triggered : Bool
deriving DecidableEq

/-- The two mutable stores of app.py: the SQLite `fraud_profiles` table
with its `transaction_history`, and the legacy in-memory
`fraud_counters` dict. -/
structure SystemState where
  fraud_profiles : List (String × Profile)
  fraud_counters : List (String × CounterEntry)
  transaction_history : List HistoryRecord
deriving DecidableEq

/-- Store a value under a key in an association list, replacing the
first existing binding (the effect of an SQL INSERT-or-UPDATE keyed by
`upi_id`, or of a dict assignment). -/
def assocSet {α : Type} (key : String) (value : α) :
    List (String × α) → List (String × α)
  | [] => [(key, value)]
  | (k, v) :: rest =>
    if k = key then (key, value) :: rest else (k, v) :: assocSet key value rest

/-- System state with no profiles, counters or history. -/
def emptyState : SystemState :=
  { fraud_profiles := [], fraud_counters := [], transaction_history := [] }

/-- `update_user_fraud_profile` acting on the whole system state: it
reads and writes only the `fraud_profiles` table and appends to
`transaction_history` (app.py lines 249-331); the legacy
`fraud_counters` dict is untouched. -/
def apply_transaction (s : SystemState) (upi_id : String) (a : ApplyArgs) :
    SystemState × Profile :=
  let r := update_user_fraud_profile (List.lookup upi_id s.fraud_profiles) upi_id
    a.is_fraud a.transaction_amount a.transaction_type a.partner_app_id a.now
  ({ fraud_profiles := assocSet upi_id r.1 s.fraud_profiles
     fraud_counters := s.fraud_counters
     transaction_history := s.transaction_history ++ [r.2] }, r.1)

/-- Embedding of `reset_fraud_counter` (app.py lines 1111-1136): it
consults and rewrites only the legacy `fraud_counters` dict, returning
the previous counts when an entry exists and `none` (the
"No data found" response) otherwise.  It never touches the
`fraud_profiles` table. -/
def reset_fraud_counter (s : SystemState) (upi_id : String) :
    SystemState × Option (Nat × Nat) :=
  match List.lookup upi_id s.fraud_counters with
  | some old_data =>
    let zeroed : CounterEntry :=
      { fraud_count := 0, total_transactions := 0, first_fraud := none,
        last_fraud := none, warning_triggered := false }
    ({ s with fraud_counters := assocSet upi_id zeroed s.fraud_counters },
     some (old_data.fraud_count, old_data.total_transactions))
  | none => (s, none)

/-- The history record appended by the `/predict` endpoint (app.py
lines 499-536): `predict` obtains `model_probability` from the
classifier (line 530) and then calls `update_user_fraud_profile`
without passing it (lines 534-536), so the record is whatever that
function logs.  The `model_probability` argument is accepted and
ignored exactly as in the source. -/
def predict_history_record (model_probability : ℚ) (old : Option Profile)
    (upi_id : String) (is_fraud : Bool) (amount : ℚ) (transaction_type : String)
    (now : Nat) : HistoryRecord :=
  (update_user_fraud_profile old upi_id is_fraud amount transaction_type
    "internal_api" now).2

/-- The additive penalty table as the specification words it (§4.1:
"+30 if fraud_count > 50, else +15 if > 20, else +5 if > 10, else +0"),
stated separately so `calculate_risk_score` can be compared against the
claimed closed form. -/
def penalty_spec (fraud_count : Nat) : ℚ :=
  if fraud_count > 50 then 30
  else if fraud_count > 20 then 15
  else if fraud_count > 10 then 5
  else 0

/-- The sequence of outcomes used to exhibit duplicated warning flags:
ten fraudulent transactions followed by one clean transaction on the
same identifier. -/
def elevenApplies : List ApplyArgs := List.replicate 10 fraudArgs ++ [cleanArgs]

/-- A profile produced by the manual blacklist action on an unseen
identifier. -/
def manualProfile : Profile := manually_blacklist_user none "blocked@upi" "Manual review"

/-- A stored profile far above the count-based blacklist threshold. -/
def highCountProfile : Profile :=
  { upi_id := "big@upi", total_fraud_count := 120, total_transactions := 150,
    fraud_rate := 4/5, current_risk_level := "BLACKLISTED", risk_score := 100,
    first_fraud_date := some 0, last_fraud_date := some 5, is_blacklisted := true,
    warning_flags := ["BLACKLIST_THRESHOLD_REACHED"] }

/-- Scenario C request: unknown identifier, amount 60000, CASH_OUT. -/
def scenarioC_request : ValidationRequest :=
  { upi_id := "newuser@okaxis", partner_app_id := "mock_payment_app",
    transaction_amount := 60000, transaction_type := "CASH_OUT",
    recipient_upi_id := none }

/-- Scenario D request: tiny amount from a blacklisted identifier. -/
def scenarioD_request : ValidationRequest :=
  { upi_id := "blocked@upi", partner_app_id := "mock_payment_app",
    transaction_amount := 10, transaction_type := "PAYMENT",
    recipient_upi_id := none }

/-- A profile store holding exactly the manually blacklisted profile. -/
def blacklistedProfiles : List (String × Profile) := [("blocked@upi", manualProfile)]

/-- The warning-flag list produced by the update branch of
`update_user_fraud_profile` (app.py lines 286-303), written out as a
standalone function of the previous profile and the call arguments so
that flag-count lemmas stay small.  `applyStep_warning_flags` proves it
definitionally equal to the embedding's update. -/
def updated_warning_flags (p : Profile) (a : ApplyArgs) : List String :=
  let fc := p.total_fraud_count + (if a.is_fraud then 1 else 0)
  let base :=
    if fc = 10 then p.warning_flags ++ ["MEDIUM_RISK_THRESHOLD_REACHED"]
    else if fc = 20 then p.warning_flags ++ ["HIGH_RISK_THRESHOLD_REACHED"]
    else if fc = 50 then p.warning_flags ++ ["CRITICAL_RISK_THRESHOLD_REACHED"]
    else if 100 ≤ fc then p.warning_flags ++ ["BLACKLIST_THRESHOLD_REACHED"]
    else p.warning_flags
  if a.is_fraud then
    match p.last_fraud_date with
    | some lf => if a.now < lf + 24 then base ++ ["RECENT_FRAUD_ACTIVITY"] else base
    | none => base
  else base

/-! ## Theorems -/

/-- The flags stored by an apply on an existing profile are exactly
`updated_warning_flags`. -/
theorem applyStep_warning_flags (p : Profile) (upi : String) (a : ApplyArgs) :
    (applyStep upi (some p) a).warning_flags = updated_warning_flags p a := rfl

set_option maxHeartbeats 2000000 in
/-- Per-apply change of the four count-threshold flags. -/
theorem count_updated_warning_flags (p : Profile) (a : ApplyArgs) :
    ((updated_warning_flags p a).count "MEDIUM_RISK_THRESHOLD_REACHED"
       = p.warning_flags.count "MEDIUM_RISK_THRESHOLD_REACHED"
         + (if p.total_fraud_count + (if a.is_fraud then 1 else 0) = 10 then 1 else 0))
    ∧ ((updated_warning_flags p a).count "HIGH_RISK_THRESHOLD_REACHED"
       = p.warning_flags.count "HIGH_RISK_THRESHOLD_REACHED"
         + (if p.total_fraud_count + (if a.is_fraud then 1 else 0) = 20 then 1 else 0))
    ∧ ((updated_warning_flags p a).count "CRITICAL_RISK_THRESHOLD_REACHED"
       = p.warning_flags.count "CRITICAL_RISK_THRESHOLD_REACHED"
         + (if p.total_fraud_count + (if a.is_fraud then 1 else 0) = 50 then 1 else 0))
    ∧ ((updated_warning_flags p a).count "BLACKLIST_THRESHOLD_REACHED"
       = p.warning_flags.count "BLACKLIST_THRESHOLD_REACHED"
         + (if 100 ≤ p.total_fraud_count + (if a.is_fraud then 1 else 0) then 1 else 0)) := by
  rcases hl : p.last_fraud_date with _ | lf <;> cases hf : a.is_fraud <;>
    simp only [updated_warning_flags, hl, hf] <;>
    split_ifs <;>
    refine ⟨?_, ?_, ?_, ?_⟩ <;>
    simp_all [List.count_append, List.count_cons, List.count_nil]

/-- C1 counterexample: on a fresh identifier, one apply with
is_fraud=true stores risk level "BLACKLISTED", not "MEDIUM" as the
claim states (the fraud rate of 100 percent drives the score to 100,
which hits the score ≥ 90 rule of `get_risk_level_from_score` first). -/
theorem first_fraud_apply_not_medium :
    (applyStep "first@upi" none fraudArgs).current_risk_level ≠ "MEDIUM" := by
  norm_num [applyStep, update_user_fraud_profile, fraudArgs, get_risk_level_from_score,
    calculate_risk_score, min_def, BLACKLIST_THRESHOLD]
  decide

/-- C1 (amended): for a fresh identifier, one apply with is_fraud=true
yields fraud_count = 1, total_transactions = 1, risk_score = 100 and
risk_level = BLACKLISTED (not MEDIUM: the score-100 branch of the
classifier fires first). -/
theorem first_fraud_apply_scenario :
    (applyStep "first@upi" none fraudArgs).total_fraud_count = 1
    ∧ (applyStep "first@upi" none fraudArgs).total_transactions = 1
    ∧ (applyStep "first@upi" none fraudArgs).risk_score = 100
    ∧ (applyStep "first@upi" none fraudArgs).current_risk_level = "BLACKLISTED" := by
  refine ⟨rfl, rfl, ?_, ?_⟩ <;>
    norm_num [applyStep, update_user_fraud_profile, fraudArgs, get_risk_level_from_score,
      calculate_risk_score, min_def, BLACKLIST_THRESHOLD]

/-- C2 counterexample: a manually blacklisted fresh profile has
is_blacklisted = true, yet the very next apply with is_fraud=false
stores is_blacklisted = false, because the update branch recomputes
`fraud_count >= 100 or risk_score >= 90` from scratch. -/
theorem manual_blacklist_cleared_by_clean_apply :
    manualProfile.is_blacklisted = true
    ∧ (applyStep "blocked@upi" (some manualProfile) cleanArgs).is_blacklisted = false := by
  refine ⟨rfl, ?_⟩
  norm_num [applyStep, update_user_fraud_profile, manualProfile, manually_blacklist_user,
    cleanArgs, calculate_risk_score, min_def, BLACKLIST_THRESHOLD]

/-- C2 (amended): an apply with is_fraud=false on a stored profile does
not keep is_blacklisted sticky; it stores exactly the recomputed value
`fraud_count >= 100 or new score >= 90`.  Blacklisting therefore
survives a non-fraud apply only when that condition still holds, which
is guaranteed when fraud_count >= 100 (counts never decrease). -/
theorem clean_apply_recomputes_blacklist (p : Profile) (upi : String) (a : ApplyArgs)
    (h : a.is_fraud = false) :
    ((applyStep upi (some p) a).is_blacklisted
      = (decide (p.total_fraud_count ≥ BLACKLIST_THRESHOLD)
         || decide (calculate_risk_score p.total_fraud_count (p.total_transactions + 1) 0 ≥ 90)))
    ∧ (BLACKLIST_THRESHOLD ≤ p.total_fraud_count →
        (applyStep upi (some p) a).is_blacklisted = true) := by
  have key : (applyStep upi (some p) a).is_blacklisted
      = (decide (p.total_fraud_count ≥ BLACKLIST_THRESHOLD)
         || decide (calculate_risk_score p.total_fraud_count (p.total_transactions + 1) 0 ≥ 90)) := by
    simp [applyStep, update_user_fraud_profile, h]
  refine ⟨key, fun hc => ?_⟩
  rw [key, decide_eq_true hc, Bool.true_or]

/-- C2 witness: the amended theorem applied to a stored profile with
fraud_count = 120 and a concrete clean transaction. -/
theorem clean_apply_recomputes_blacklist_witness :
    (applyStep "big@upi" (some highCountProfile) cleanArgs).is_blacklisted = true :=
  (clean_apply_recomputes_blacklist highCountProfile "big@upi" cleanArgs rfl).2 (by decide)

/-- C3 counterexample: starting from a fresh identifier, ten fraudulent
applies followed by one clean apply leave the profile with the flag
"MEDIUM_RISK_THRESHOLD_REACHED" occurring twice (the tenth fraud makes
the count 10; the clean apply leaves it at 10 and the exact-equality
check fires again). -/
theorem medium_flag_emitted_twice :
    (applyAll "x@upi" none elevenApplies).map
      (fun p => p.warning_flags.count "MEDIUM_RISK_THRESHOLD_REACHED") = some 2 := by
  decide

/-- C3 (amended): on every apply to an existing profile the flag list
grows by exactly one copy of the matching count-threshold flag — the
MEDIUM/HIGH/CRITICAL flags whenever the new fraud count equals 10/20/50
(also on non-fraud applies that leave the count at the boundary), and
the blacklist flag on every apply whose new fraud count is ≥ 100 — with
no deduplication, so each of these flags can occur more than once. -/
theorem update_threshold_flag_counts (p : Profile) (upi : String) (a : ApplyArgs) :
    ((applyStep upi (some p) a).warning_flags.count "MEDIUM_RISK_THRESHOLD_REACHED"
       = p.warning_flags.count "MEDIUM_RISK_THRESHOLD_REACHED"
         + (if p.total_fraud_count + (if a.is_fraud then 1 else 0) = 10 then 1 else 0))
    ∧ ((applyStep upi (some p) a).warning_flags.count "HIGH_RISK_THRESHOLD_REACHED"
       = p.warning_flags.count "HIGH_RISK_THRESHOLD_REACHED"
         + (if p.total_fraud_count + (if a.is_fraud then 1 else 0) = 20 then 1 else 0))
    ∧ ((applyStep upi (some p) a).warning_flags.count "CRITICAL_RISK_THRESHOLD_REACHED"
       = p.warning_flags.count "CRITICAL_RISK_THRESHOLD_REACHED"
         + (if p.total_fraud_count + (if a.is_fraud then 1 else 0) = 50 then 1 else 0))
    ∧ ((applyStep upi (some p) a).warning_flags.count "BLACKLIST_THRESHOLD_REACHED"
       = p.warning_flags.count "BLACKLIST_THRESHOLD_REACHED"
         + (if 100 ≤ p.total_fraud_count + (if a.is_fraud then 1 else 0) then 1 else 0)) := by
  simp only [applyStep_warning_flags]
  exact count_updated_warning_flags p a

/-- C8 counterexample: the apply that creates a profile (first observed
transaction, fraudulent) stores risk_score = 100 ≥ 90 but
is_blacklisted = false, because the creating INSERT never sets the
`is_blacklisted` column and the SQL default FALSE applies. -/
theorem creation_ignores_score_blacklist :
    (90:ℚ) ≤ (applyStep "first@upi" none fraudArgs).risk_score
    ∧ (applyStep "first@upi" none fraudArgs).is_blacklisted = false := by
  refine ⟨?_, rfl⟩
  norm_num [applyStep, update_user_fraud_profile, fraudArgs, calculate_risk_score, min_def]

/-- C8 (amended): an apply on an existing profile stores
is_blacklisted exactly when the stored fraud_count is ≥ 100 or the
stored risk_score is ≥ 90; the apply that creates a profile always
stores is_blacklisted = false, even when the stored risk_score is
≥ 90. -/
theorem apply_blacklist_characterization :
    (∀ (upi : String) (a : ApplyArgs), (applyStep upi none a).is_blacklisted = false)
    ∧ (∀ (p : Profile) (upi : String) (a : ApplyArgs),
        (applyStep upi (some p) a).is_blacklisted
          = (decide ((applyStep upi (some p) a).total_fraud_count ≥ BLACKLIST_THRESHOLD)
             || decide ((applyStep upi (some p) a).risk_score ≥ 90))) :=
  ⟨fun _ _ => rfl, fun _ _ _ => rfl⟩

/-- The penalty table is non-negative. -/
theorem penalty_spec_nonneg (fc : Nat) : 0 ≤ penalty_spec fc := by
  unfold penalty_spec
  split_ifs <;> norm_num

/-- The penalty table is monotone in the fraud count. -/
theorem penalty_spec_mono {fc fc' : Nat} (h : fc ≤ fc') :
    penalty_spec fc ≤ penalty_spec fc' := by
  unfold penalty_spec
  split_ifs <;> first | omega | norm_num

/-- Closed form of `calculate_risk_score` in terms of the penalty
table. -/
theorem calculate_risk_score_closed_form (fc tt rf : Nat) :
    calculate_risk_score fc tt rf
      = if tt = 0 then 0
        else min 100 ((fc:ℚ)/(tt:ℚ) * 100 + penalty_spec fc + 2 * (rf:ℚ)) := by
  simp only [calculate_risk_score, penalty_spec]
  split_ifs <;> first | rfl | (rw [min_comm]; congr 1; ring)

/-- C4: `calculate_risk_score` returns 0 when total_transactions = 0,
always lies in [0, 100], equals
min(100, rate·100 + count-penalty + 2·recent) when total_transactions
is positive, and is non-decreasing in fraud_count with
total_transactions fixed. -/
theorem calculate_risk_score_correct :
    (∀ fc rf, calculate_risk_score fc 0 rf = 0)
    ∧ (∀ fc tt rf, 0 ≤ calculate_risk_score fc tt rf
        ∧ calculate_risk_score fc tt rf ≤ 100)
    ∧ (∀ fc tt rf, tt ≠ 0 →
        calculate_risk_score fc tt rf
          = min 100 ((fc:ℚ)/(tt:ℚ) * 100 + penalty_spec fc + 2 * (rf:ℚ)))
    ∧ (∀ fc fc' tt rf, fc ≤ fc' →
        calculate_risk_score fc tt rf ≤ calculate_risk_score fc' tt rf) := by
  refine ⟨fun fc rf => by rw [calculate_risk_score_closed_form]; simp,
    fun fc tt rf => ?_, fun fc tt rf h => ?_, fun fc fc' tt rf h => ?_⟩
  · rw [calculate_risk_score_closed_form]
    split_ifs with h0
    · norm_num
    · constructor
      · refine le_min (by norm_num) ?_
        have h1 : (0:ℚ) ≤ (fc:ℚ)/(tt:ℚ) * 100 := by positivity
        have h2 := penalty_spec_nonneg fc
        have h3 : (0:ℚ) ≤ 2 * (rf:ℚ) := by positivity
        linarith
      · exact min_le_left _ _
  · rw [calculate_risk_score_closed_form]
    exact if_neg h
  · rw [calculate_risk_score_closed_form, calculate_risk_score_closed_form]
    split_ifs with h0
    · exact le_refl 0
    · refine min_le_min (le_refl _) ?_
      have htt : (0:ℚ) < (tt:ℚ) := by
        exact_mod_cast Nat.pos_of_ne_zero h0
      have hcast : (fc:ℚ) ≤ (fc':ℚ) := by exact_mod_cast h
      have hdiv : (fc:ℚ)/(tt:ℚ) ≤ (fc':ℚ)/(tt:ℚ) := by gcongr
      have hpen := penalty_spec_mono h
      linarith

/-- C4 witness: the pieces of `calculate_risk_score_correct` with
hypotheses, instantiated at concrete inputs. -/
theorem calculate_risk_score_correct_witness :
    calculate_risk_score 2 4 0
      = min 100 ((2:ℚ)/(4:ℚ) * 100 + penalty_spec 2 + 2 * ((0:Nat):ℚ))
    ∧ calculate_risk_score 2 4 1 ≤ calculate_risk_score 3 4 1 :=
  ⟨calculate_risk_score_correct.2.2.1 2 4 0 (by decide),
   calculate_risk_score_correct.2.2.2 2 3 4 1 (by decide)⟩

/-- C5: evaluation of `reset_fraud_counter` at an identifier whose
stored profile has nonzero counters (one fraudulent transaction
recorded through `apply_transaction`).  The endpoint consults only the
legacy `fraud_counters` dict — which no code path populates since
`update_fraud_counter` was rewired to the database — so it answers
"No data found" (`none`), leaves the whole state unchanged, and the
stored profile keeps fraud_count = 1. -/
theorem reset_counter_leaves_stored_profile :
    ((reset_fraud_counter (apply_transaction emptyState "victim@upi" fraudArgs).1
        "victim@upi").2 = none)
    ∧ ((reset_fraud_counter (apply_transaction emptyState "victim@upi" fraudArgs).1
        "victim@upi").1 = (apply_transaction emptyState "victim@upi" fraudArgs).1)
    ∧ ((List.lookup "victim@upi"
        (reset_fraud_counter (apply_transaction emptyState "victim@upi" fraudArgs).1
          "victim@upi").1.fraud_profiles).map Profile.total_fraud_count = some 1) :=
  ⟨rfl, rfl, rfl⟩

/-- C6 counterexample: for an unknown identifier, amount 60000 and type
CASH_OUT, the verdict is not (tier MEDIUM with PROCEED_WITH_CAUTION):
the CASH_OUT-above-25000 check upgrades the MEDIUM amount tier to
HIGH. -/
theorem scenarioC_not_medium :
    ¬ ((validate_transaction_realtime [] scenarioC_request).transaction_risk = "MEDIUM"
       ∧ (validate_transaction_realtime [] scenarioC_request).recommendation
           = "PROCEED_WITH_CAUTION") := by
  have h : containsFraudPattern "newuser@okaxis" = false := by decide
  norm_num [validate_transaction_realtime, get_user_fraud_profile, scenarioC_request, h]
  decide

/-- C6 (amended): validating a transaction for an identifier with no
stored profile, amount 60000 and type CASH_OUT produces risk tier HIGH
(the amount sets MEDIUM, then the CASH_OUT-above-25000 check raises it
to HIGH), recommendation MANUAL_REVIEW_REQUIRED, and
should_block = false. -/
theorem scenarioC_verdict :
    (validate_transaction_realtime [] scenarioC_request).transaction_risk = "HIGH"
    ∧ (validate_transaction_realtime [] scenarioC_request).recommendation
        = "MANUAL_REVIEW_REQUIRED"
    ∧ (validate_transaction_realtime [] scenarioC_request).should_block = false := by
  have h : containsFraudPattern "newuser@okaxis" = false := by decide
  norm_num [validate_transaction_realtime, get_user_fraud_profile, scenarioC_request, h]
  decide

/-- C7: whenever the stored profile of the requested identifier is
blacklisted, the verdict has should_block = true, whatever the amount,
type or patterns; and in general should_block equals
(profile.is_blacklisted OR final tier = CRITICAL).  The blacklisted
case is an ordinary verdict value of `validate_transaction_realtime`,
not an error. -/
theorem validate_blacklisted_blocks (profiles : List (String × Profile))
    (req : ValidationRequest) :
    ((get_user_fraud_profile profiles req.upi_id).is_blacklisted = true →
      (validate_transaction_realtime profiles req).should_block = true)
    ∧ ((validate_transaction_realtime profiles req).should_block
        = ((get_user_fraud_profile profiles req.upi_id).is_blacklisted
           || ((validate_transaction_realtime profiles req).transaction_risk == "CRITICAL"))) := by
  have key : (validate_transaction_realtime profiles req).should_block
      = ((get_user_fraud_profile profiles req.upi_id).is_blacklisted
         || ((validate_transaction_realtime profiles req).transaction_risk == "CRITICAL")) := rfl
  exact ⟨fun h => by rw [key, h, Bool.true_or], key⟩

/-- C7 witness: the theorem applied to a store holding a manually
blacklisted profile and a request with amount 10 (Scenario D). -/
theorem validate_blacklisted_blocks_witness :
    (validate_transaction_realtime blacklistedProfiles scenarioD_request).should_block
      = true :=
  (validate_blacklisted_blocks blacklistedProfiles scenarioD_request).1 rfl

/-- C10: the history record appended by every apply stores as its
fraud_probability the new profile risk score divided by 100; the
`/predict` endpoint's record is exactly that record, for every value of
the classifier probability it computed and dropped. -/
theorem history_fraud_probability_is_score (old : Option Profile) (upi : String)
    (fraud_outcome : Bool) (amount : ℚ) (ttype pid : String) (now : Nat)
    (model_probability : ℚ) :
    ((update_user_fraud_profile old upi fraud_outcome amount ttype pid now).2.fraud_probability
      = (update_user_fraud_profile old upi fraud_outcome amount ttype pid now).1.risk_score / 100)
    ∧ (predict_history_record model_probability old upi fraud_outcome amount ttype now
      = (update_user_fraud_profile old upi fraud_outcome amount ttype "internal_api" now).2) := by
  cases old <;> exact ⟨rfl, rfl⟩

end NidhiRakshak
